import Mathlib

/-!
Verification of the Declarative Entity Query & Live-Subscription Engine
(editor/src/engine of wasm_engine).

The TypeScript sources are shallowly embedded:
* JavaScript numbers are modelled as `Int` (all values exercised here are
  integers well below 2^53, where JS float arithmetic is exact).
* The `EntityQueryBuilder` keeps its internal `QueryDescriptor` object whose
  array-valued fields (`select`, `with_components`, `without_components`,
  `filters`) are JavaScript arrays, i.e. heap references.  `build()` performs
  `{ ...this.descriptor }`, a shallow copy that shares those array references.
  To capture this aliasing faithfully the model carries an explicit heap of
  arrays (`strArrs` for string arrays, `filtArrs` for filter arrays) and the
  descriptor fields hold indices into that heap.
* `order_by`, `limit`, `offset` are primitives or objects that are only ever
  replaced wholesale (never mutated in place), so they are held by value.
* The initial descriptor object literal in the constructor has no `offset`
  key at all; `offset` only appears once `offset()` or `page()` assigns it.
  `JSON.stringify` omits absent keys, so the key set of `toJSON()` depends on
  that distinction; `offset = none` models the absent key.
-/

/-- A JavaScript value as it occurs in filters and result fields:
`number | string | boolean | null` (numbers modelled as integers). -/
inductive JsValue where
  | num (n : Int)
  | str (s : String)
  | bool (b : Bool)
  | null
deriving DecidableEq, Repr

/-- The comparison operators of `CompareOp` in types.ts:
`'==' | '!=' | '<' | '<=' | '>' | '>='`. -/
inductive CompareOp where
  | eq | ne | lt | le | gt | ge
deriving DecidableEq, Repr

/-- Sort direction `'asc' | 'desc'` from types.ts. -/
inductive SortDirection where
  | asc | desc
deriving DecidableEq, Repr

/-- FilterExpr from types.ts: `{field, op, value}`. -/
structure FilterExpr where
  field : String
  op : CompareOp
  value : JsValue
deriving DecidableEq, Repr

/-- OrderBy from types.ts: `{field, direction}`. -/
structure OrderBy where
  field : String
  direction : SortDirection
deriving DecidableEq, Repr

/-- The value view of a QueryDescriptor (types.ts): what one observes when
reading every field of the descriptor object.  `limit = none` renders the
JS `null`; `offset = none` renders an absent `offset` key (the builder never
stores `null` in `offset`, it either leaves the key absent or stores a
number). -/
structure QueryDescriptor where
  select : List String
  with_components : List String
  without_components : List String
  filters : List FilterExpr
  order_by : Option OrderBy
  limit : Option Int
  offset : Option Int
deriving DecidableEq, Repr

/-- The state of an `EntityQueryBuilder` (query.ts) together with the heap of
JavaScript arrays its descriptor refers to.  `strArrs` holds every string
array ever allocated, `filtArrs` every filter array; the `*Ref` fields are
the descriptor's current references into those heaps. -/
structure BuilderState where
  strArrs : List (List String)
  filtArrs : List (List FilterExpr)
  selectRef : Nat
  withRef : Nat
  withoutRef : Nat
  filtersRef : Nat
  order_by : Option OrderBy
  limit : Option Int
  offset : Option Int
deriving DecidableEq, Repr

namespace BuilderState

/-- The constructor `new EntityQueryBuilder()`: allocates fresh empty arrays
for `select`, `with_components`, `without_components`, `filters`, sets
`order_by` and `limit` to `null`, and does not create an `offset` key. -/
def newBuilder : BuilderState where
  strArrs := [[], [], []]
  filtArrs := [[]]
  selectRef := 0
  withRef := 1
  withoutRef := 2
  filtersRef := 0
  order_by := none
  limit := none
  offset := none

/-- JavaScript `arr.push(...xs)` on the string array at heap index `r`. -/
def pushStr (arrs : List (List String)) (r : Nat) (xs : List String) :
    List (List String) :=
  arrs.set r (arrs.getD r [] ++ xs)

/-- JavaScript `arr.push(x)` on the filter array at heap index `r`. -/
def pushFilt (arrs : List (List FilterExpr)) (r : Nat) (x : FilterExpr) :
    List (List FilterExpr) :=
  arrs.set r (arrs.getD r [] ++ [x])

/-- `select(...fields)`: `this.descriptor.select = fields` assigns the fresh
rest-argument array, so the model allocates a new array and repoints
`selectRef` at it. -/
def selectOp (s : BuilderState) (fields : List String) : BuilderState :=
  { s with strArrs := s.strArrs ++ [fields], selectRef := s.strArrs.length }

/-- `with(...components)`: `this.descriptor.with_components.push(...components)`
mutates the array in place. -/
def withOp (s : BuilderState) (components : List String) : BuilderState :=
  { s with strArrs := pushStr s.strArrs s.withRef components }

/-- `without(...components)`: pushes onto `without_components` in place. -/
def withoutOp (s : BuilderState) (components : List String) : BuilderState :=
  { s with strArrs := pushStr s.strArrs s.withoutRef components }

/-- `where(field, op, value)`: `this.descriptor.filters.push({field, op, value})`
mutates the filter array in place. -/
def whereOp (s : BuilderState) (field : String) (op : CompareOp)
    (value : JsValue) : BuilderState :=
  { s with filtArrs := pushFilt s.filtArrs s.filtersRef ⟨field, op, value⟩ }

/-- `orderBy(field, direction = 'asc')`: replaces `order_by` with a fresh
object. -/
def orderByOp (s : BuilderState) (field : String)
    (direction : SortDirection := SortDirection.asc) : BuilderState :=
  { s with order_by := some ⟨field, direction⟩ }

/-- `limit(n)`: stores `n` unconditionally (the source performs no
validation). -/
def limitOp (s : BuilderState) (n : Int) : BuilderState :=
  { s with limit := some n }

/-- `offset(n)`: stores `n` unconditionally (the source performs no
validation); this assignment creates the `offset` key. -/
def offsetOp (s : BuilderState) (n : Int) : BuilderState :=
  { s with offset := some n }

/-- `page(pageIndex, perPage)`: `offset = pageIndex * perPage; limit = perPage`,
again with no validation. -/
def pageOp (s : BuilderState) (pageIndex perPage : Int) : BuilderState :=
  { s with offset := some (pageIndex * perPage), limit := some perPage }

end BuilderState

/-- The object returned by `build()`: `{ ...this.descriptor }` copies the four
array *references* and the three by-value fields.  Reading it later goes
through whatever the arrays contain at that time. -/
structure DescriptorHandle where
  selectRef : Nat
  withRef : Nat
  withoutRef : Nat
  filtersRef : Nat
  order_by : Option OrderBy
  limit : Option Int
  offset : Option Int
deriving DecidableEq, Repr

namespace BuilderState

/-- `build()`: the shallow copy `{ ...this.descriptor }`. -/
def buildOp (s : BuilderState) : DescriptorHandle :=
  { selectRef := s.selectRef
    withRef := s.withRef
    withoutRef := s.withoutRef
    filtersRef := s.filtersRef
    order_by := s.order_by
    limit := s.limit
    offset := s.offset }

/-- Reading every field of a built descriptor against the current heap. -/
def deref (s : BuilderState) (d : DescriptorHandle) : QueryDescriptor :=
  { select := s.strArrs.getD d.selectRef []
    with_components := s.strArrs.getD d.withRef []
    without_components := s.strArrs.getD d.withoutRef []
    filters := s.filtArrs.getD d.filtersRef []
    order_by := d.order_by
    limit := d.limit
    offset := d.offset }

/-- The value of the builder's own current descriptor. -/
def current (s : BuilderState) : QueryDescriptor :=
  s.deref s.buildOp

/-- The list of keys `JSON.stringify(this.descriptor)` emits in `toJSON()`:
the six keys of the constructor's object literal in insertion order, then
`offset` if (and only if) that key has been assigned.  `JSON.stringify`
serializes `null` values but skips absent keys. -/
def toJSONKeys (s : BuilderState) : List String :=
  ["select", "with_components", "without_components", "filters",
   "order_by", "limit"] ++ (if s.offset.isSome then ["offset"] else [])

/-- Well-formedness of a builder state: all descriptor references point into
the heap and the three string-array references are pairwise distinct.  This
holds for every state reachable from `newBuilder`. -/
def WF (s : BuilderState) : Prop :=
  s.selectRef < s.strArrs.length ∧ s.withRef < s.strArrs.length ∧
  s.withoutRef < s.strArrs.length ∧ s.filtersRef < s.filtArrs.length ∧
  s.selectRef ≠ s.withRef ∧ s.selectRef ≠ s.withoutRef ∧
  s.withRef ≠ s.withoutRef

instance (s : BuilderState) : Decidable s.WF := by
  unfold WF; infer_instance

end BuilderState

/-- One call in the fluent builder API, used to quantify over call
sequences. -/
inductive BuilderOp where
  | selectC (fields : List String)
  | withC (components : List String)
  | withoutC (components : List String)
  | whereC (field : String) (op : CompareOp) (value : JsValue)
  | orderByC (field : String) (direction : SortDirection)
  | limitC (n : Int)
  | offsetC (n : Int)
  | pageC (pageIndex perPage : Int)
deriving DecidableEq, Repr

namespace BuilderOp

/-- Apply one builder call to a builder state. -/
def apply (s : BuilderState) : BuilderOp → BuilderState
  | selectC fields => s.selectOp fields
  | withC cs => s.withOp cs
  | withoutC cs => s.withoutOp cs
  | whereC f o v => s.whereOp f o v
  | orderByC f d => s.orderByOp f d
  | limitC n => s.limitOp n
  | offsetC n => s.offsetOp n
  | pageC p k => s.pageOp p k

/-- Apply a sequence of builder calls from left to right. -/
def applyAll (s : BuilderState) (ops : List BuilderOp) : BuilderState :=
  ops.foldl apply s

/-- Whether a call assigns the `offset` key (`offset()` or `page()`). -/
def touchesOffset : BuilderOp → Bool
  | offsetC _ => true
  | pageC _ _ => true
  | _ => false

end BuilderOp

/-!
EntityId (types.ts): `index = id & 0xFFFFF`, `generation = id >> 20`,
`pack = (generation << 20) | index`, under JavaScript 32-bit bitwise
semantics (operands pass through ToInt32; `>>` is the sign-propagating
shift, i.e. floor division of the signed 32-bit value by a power of two,
which for a positive divisor is exactly `Int.ediv`).
-/

namespace EntityId

/-- The 32-bit pattern of a JS number after ToInt32/ToUint32, as a `Nat`
below 2^32. -/
def bits32 (n : Int) : Nat := (n % (2 ^ 32)).toNat

/-- Reinterpret a 32-bit pattern as a signed 32-bit integer. -/
def ofBits (p : Nat) : Int := if p < 2 ^ 31 then (p : Int) else (p : Int) - 2 ^ 32

/-- ToInt32, the conversion JS applies to every bitwise operand. -/
def toInt32 (n : Int) : Int := ofBits (bits32 n)

/-- JavaScript `a << 20`. -/
def jsShl20 (a : Int) : Int := ofBits (bits32 a * 2 ^ 20 % 2 ^ 32)

/-- JavaScript `a | b`. -/
def jsOr (a b : Int) : Int := ofBits (bits32 a ||| bits32 b)

/-- JavaScript `a & b`. -/
def jsAnd (a b : Int) : Int := ofBits (bits32 a &&& bits32 b)

/-- JavaScript `a >> 20`: sign-propagating shift of the int32 value, which is
floor division by 2^20; `/` on `Int` is `Int.ediv`, floor division for a
positive divisor. -/
def jsShr20 (a : Int) : Int := toInt32 a / 2 ^ 20

/-- `EntityId.pack` from types.ts: `(generation << 20) | index`. -/
def pack (index generation : Int) : Int := jsOr (jsShl20 generation) index

/-- `EntityId.index` from types.ts: `id & 0xFFFFF`. -/
def index (id : Int) : Int := jsAnd id 0xFFFFF

/-- `EntityId.generation` from types.ts: `id >> 20`. -/
def generation (id : Int) : Int := jsShr20 id

end EntityId

/-!
EngineAPI (EngineAPI.ts).  The WASM engine behind the wrapper is external
(the Rust crate is not part of the query-engine sources), so each delegated
call takes the engine's would-be reply as an explicit argument; what is
modelled is the wrapper's own logic: the `initialized`/`engine` fields, the
`assertInitialized`/`getEngine` guard that throws `Error('Engine not
initialized. Call initialize() first.')`, the `entities` cache, and
`dispose`.  Methods are functions into `Except String`, errors standing for
thrown exceptions.
-/

/-- The mutable fields of an `EngineAPI` instance.  `engine` is `some ()`
exactly when the private `engine` field is non-null. -/
structure EngineAPI where
  engine : Option Unit
  entities : List (Int × String)
  initialized : Bool
deriving DecidableEq, Repr

namespace EngineAPI

/-- The message of the guard's exception. -/
def notInitMsg : String := "Engine not initialized. Call initialize() first."

/-- A fresh `new EngineAPI()`. -/
def new : EngineAPI where
  engine := none
  entities := []
  initialized := false

/-- The public getter `isInitialized`. -/
def isInitialized (s : EngineAPI) : Bool :=
  s.initialized && s.engine.isSome

/-- `initialize(canvas)` completing successfully: sets `engine` and
`initialized`. -/
def initializeOk (s : EngineAPI) : EngineAPI :=
  { s with engine := some (), initialized := true }

/-- `assertInitialized()`: throws unless `initialized` and `engine` non-null. -/
def assertInitialized (s : EngineAPI) : Except String Unit :=
  if s.initialized ∧ s.engine.isSome then Except.ok () else Except.error notInitMsg

/-- `getEngine()`: the guard, then the engine handle. -/
def getEngine (s : EngineAPI) : Except String Unit :=
  match s.assertInitialized with
  | Except.ok _ => Except.ok ()
  | Except.error e => Except.error e

/-- `createEntity(name)`: delegates to the engine (whose reply `wasmId` is a
parameter) and caches the id/name pair. -/
def createEntity (s : EngineAPI) (name : String) (wasmId : Int) :
    Except String (Int × EngineAPI) := do
  let _ ← s.getEngine
  Except.ok (wasmId, { s with entities := s.entities ++ [(wasmId, name)] })

/-- `deleteEntity(id)`: delegates, and drops the cache entry on success. -/
def deleteEntity (s : EngineAPI) (id : Int) (wasmResult : Bool) :
    Except String (Bool × EngineAPI) := do
  let _ ← s.getEngine
  Except.ok (wasmResult,
    if wasmResult then { s with entities := s.entities.filter (·.1 ≠ id) } else s)

/-- `setPosition(id, pos)`. -/
def setPosition (s : EngineAPI) (id : Int) (pos : Int × Int × Int) :
    Except String Unit := do
  let _ ← s.getEngine
  Except.ok ()

/-- `getPosition(id)`; `wasmReply` is the engine's reply. -/
def getPosition (s : EngineAPI) (id : Int)
    (wasmReply : Option (Int × Int × Int)) :
    Except String (Option (Int × Int × Int)) := do
  let _ ← s.getEngine
  Except.ok wasmReply

/-- `getName(id)`. -/
def getName (s : EngineAPI) (id : Int) (wasmReply : Option String) :
    Except String (Option String) := do
  let _ ← s.getEngine
  Except.ok wasmReply

/-- `setName(id, name)`: delegates and updates the cache. -/
def setName (s : EngineAPI) (id : Int) (name : String) :
    Except String EngineAPI := do
  let _ ← s.getEngine
  Except.ok { s with entities := s.entities.filter (·.1 ≠ id) ++ [(id, name)] }

/-- `tick(deltaTime)`. -/
def tick (s : EngineAPI) (deltaTime : Int) : Except String Unit := do
  let _ ← s.getEngine
  Except.ok ()

/-- `getEntityCount()`. -/
def getEntityCount (s : EngineAPI) (wasmReply : Int) : Except String Int := do
  let _ ← s.getEngine
  Except.ok wasmReply

/-- `executeQuery(query)`: serializes, then delegates `execute_query`. -/
def executeQuery (s : EngineAPI) (wasmReply : List Int × Nat) :
    Except String (List Int × Nat) := do
  let _ ← s.getEngine
  Except.ok wasmReply

/-- `subscribeQuery(query, callback)`: delegates `subscribe_query`. -/
def subscribeQuery (s : EngineAPI) (wasmId : Int) : Except String Int := do
  let _ ← s.getEngine
  Except.ok wasmId

/-- `unsubscribeQuery(subscriptionId)`: delegates `unsubscribe_query`. -/
def unsubscribeQuery (s : EngineAPI) (id : Int) (wasmReply : Bool) :
    Except String Bool := do
  let _ ← s.getEngine
  Except.ok wasmReply

/-- `dispose()`: if the engine is present, frees it, nulls the field, clears
`initialized` and the cache; otherwise does nothing. -/
def dispose (s : EngineAPI) : EngineAPI :=
  match s.engine with
  | some _ => { engine := none, entities := [], initialized := false }
  | none => s

end EngineAPI

/-!
Query Executor.  The executor lives in the Rust crate `crates/engine-wasm`
behind `execute_query`, whose source is not in this repository snapshot
(only the shader is present), so it is modelled from the specification.
-/

/-- Modelled from the spec: an entity of the world snapshot, as the host
store exposes it — an id, the set of component names it possesses, and its
field values (a field is either present with a value or absent). -/
structure Entity where
  id : Int
  components : List String
  fields : List (String × JsValue)
deriving DecidableEq, Repr

/-- Field lookup on an entity: `some v` when present, `none` when absent. -/
def Entity.fieldValue (e : Entity) (f : String) : Option JsValue :=
  (e.fields.find? (fun p => p.1 == f)).map (·.2)

/-- Modelled from the spec: the world snapshot handed to the executor —
alive entities enumerated in stable creation order. -/
structure World where
  entities : List Entity
deriving DecidableEq, Repr

/-- A row of a Result: `{id, fields}` with only the selected, present
fields. -/
structure QueryResultRow where
  id : Int
  fields : List (String × JsValue)
deriving DecidableEq, Repr

/-- A Result: ordered rows plus the pre-pagination match count. -/
structure QueryResult where
  rows : List QueryResultRow
  total_count : Nat
deriving DecidableEq, Repr

namespace Executor

/-- Modelled from the spec (§4.2 Filter Evaluator): absent field matches only
`== null`; equality is exact per-type equality and `!=` its negation;
ordering operators compare numbers numerically and strings
lexicographically, and evaluate false on any type mismatch, never
raising. -/
def evalCompare (fv : Option JsValue) (op : CompareOp) (v : JsValue) : Bool :=
  match fv with
  | none => op == CompareOp.eq && v == JsValue.null
  | some w =>
    match op with
    | CompareOp.eq => w == v
    | CompareOp.ne => w != v
    | CompareOp.lt =>
      match w, v with
      | JsValue.num a, JsValue.num b => a < b
      | JsValue.str a, JsValue.str b => a < b
      | _, _ => false
    | CompareOp.le =>
      match w, v with
      | JsValue.num a, JsValue.num b => a ≤ b
      | JsValue.str a, JsValue.str b => a < b || a == b
      | _, _ => false
    | CompareOp.gt =>
      match w, v with
      | JsValue.num a, JsValue.num b => b < a
      | JsValue.str a, JsValue.str b => b < a
      | _, _ => false
    | CompareOp.ge =>
      match w, v with
      | JsValue.num a, JsValue.num b => b ≤ a
      | JsValue.str a, JsValue.str b => b < a || a == b
      | _, _ => false

/-- Whether an entity satisfies one FilterExpr. -/
def matchesFilter (e : Entity) (f : FilterExpr) : Bool :=
  evalCompare (e.fieldValue f.field) f.op f.value

/-- Modelled from the spec (§4.3 step 1): the candidate set — alive entities
possessing every component in `with_components` and none in
`without_components`. -/
def candidates (w : World) (d : QueryDescriptor) : List Entity :=
  w.entities.filter (fun e =>
    d.with_components.all (fun c => e.components.contains c) &&
    d.without_components.all (fun c => !(e.components.contains c)))

/-- Modelled from the spec (§4.3 step 2): conjunctive filter application. -/
def survivors (w : World) (d : QueryDescriptor) : List Entity :=
  (candidates w d).filter (fun e => d.filters.all (matchesFilter e))

/-- Sort comparator for `order_by` (§4.3 step 4): entities missing the sort
field sort after all entities that have it regardless of direction; present
values compare by §4.2's rules (`asc` ≤, `desc` reversed); incomparable
values are treated as tied, keeping the stable order. -/
def sortLe (ob : OrderBy) (e₁ e₂ : Entity) : Bool :=
  match e₁.fieldValue ob.field, e₂.fieldValue ob.field with
  | some a, some b =>
    match ob.direction with
    | SortDirection.asc => !(evalCompare (some b) CompareOp.lt a)
    | SortDirection.desc => !(evalCompare (some a) CompareOp.lt b)
  | some _, none => true
  | none, some _ => false
  | none, none => true

/-- Stable insertion of an element into an already-sorted suffix: the new
element goes after every existing element it does not strictly precede. -/
def insertLe (le : Entity → Entity → Bool) (x : Entity) :
    List Entity → List Entity
  | [] => [x]
  | y :: ys => if le y x then y :: insertLe le x ys else x :: y :: ys

/-- Stable insertion sort. -/
def sortBy (le : Entity → Entity → Bool) : List Entity → List Entity
  | [] => []
  | x :: xs => insertLe le x (sortBy le xs)

/-- Modelled from the spec (§4.3 step 4): the surviving set in final order —
stable sort when `order_by` is set, creation order otherwise. -/
def ordered (w : World) (d : QueryDescriptor) : List Entity :=
  match d.order_by with
  | none => survivors w d
  | some ob => sortBy (sortLe ob) (survivors w d)

/-- Modelled from the spec (§4.3 step 6): projection of one entity onto the
selected fields it actually has. -/
def project (d : QueryDescriptor) (e : Entity) : QueryResultRow :=
  { id := e.id
    fields := d.select.filterMap (fun f => (e.fieldValue f).map (fun v => (f, v))) }

/-- Modelled from the spec (§4.3): the executor `execute(descriptor) → Result`
of the Rust engine, absent from the sources.  Steps: candidate set, filters,
`total_count` before pagination, ordering, `offset` drop then `limit` take,
projection.  It is a total function: a vacuously unsatisfiable descriptor
produces an empty Result, never an error. -/
def execute (w : World) (d : QueryDescriptor) : QueryResult :=
  let surv := survivors w d
  let ord := ordered w d
  let off := (d.offset.getD 0).toNat
  let afterOff := ord.drop off
  let paged :=
    match d.limit with
    | none => afterOff
    | some n => afterOff.take n.toNat
  { rows := paged.map (project d), total_count := surv.length }

end Executor

/-!
Helper lemmas about heap reads.
-/

theorem getD_set_self {α : Type} (l : List α) {i : Nat} (h : i < l.length)
    (a d : α) : (l.set i a).getD i d = a := by
  simp [List.getD_eq_getElem?_getD, List.getElem?_set_self h]

theorem getD_set_ne {α : Type} (l : List α) {i j : Nat} (h : i ≠ j)
    (a d : α) : (l.set i a).getD j d = l.getD j d := by
  simp [List.getD_eq_getElem?_getD, List.getElem?_set_ne h]

/-- C5: `page(p, n)` stores `offset = p * n` and `limit = n`, and produces a
builder state identical to `offset(p * n)` followed by `limit(n)`. -/
theorem page_equals_offset_then_limit (s : BuilderState) (p n : Int) :
    (s.pageOp p n).current.offset = some (p * n) ∧
    (s.pageOp p n).current.limit = some n ∧
    s.pageOp p n = (s.offsetOp (p * n)).limitOp n :=
  ⟨rfl, rfl, rfl⟩

/-- C6: a second `select` replaces the first entirely; the built descriptor's
select list is exactly the last argument list. -/
theorem select_replaces_previous (s : BuilderState) (f₁ f₂ : List String) :
    ((s.selectOp f₁).selectOp f₂).current.select = f₂ := by
  simp only [BuilderState.current, BuilderState.deref, BuilderState.buildOp,
    BuilderState.selectOp, List.append_assoc, List.singleton_append,
    List.length_append, List.length_cons, List.length_nil,
    List.getD_eq_getElem?_getD]
  rw [List.getElem?_append_right (by simp)]
  simp

/-- C8: `orderBy` replaces any prior ordering, and an omitted direction
defaults to `asc`. -/
theorem orderBy_replaces_and_defaults_asc (s : BuilderState)
    (f₁ : String) (d₁ : SortDirection) (f₂ : String) (d₂ : SortDirection) :
    ((s.orderByOp f₁ d₁).orderByOp f₂ d₂).current.order_by = some ⟨f₂, d₂⟩ ∧
    (s.orderByOp f₁).current.order_by = some ⟨f₁, SortDirection.asc⟩ :=
  ⟨rfl, rfl⟩

/-- Counterexample to C2: `limit(-1)`, `offset(-1)` and `page(-1, 5)` raise
nothing (the builder methods are total) and store the negative values in the
descriptor. -/
theorem negative_pagination_no_error :
    (BuilderState.newBuilder.limitOp (-1)).current.limit = some (-1) ∧
    (BuilderState.newBuilder.offsetOp (-1)).current.offset = some (-1) ∧
    (BuilderState.newBuilder.pageOp (-1) 5).current.offset = some (-5) := by
  decide

/-- C2 as amended: for every negative `n` (and negative `pageIndex`),
`limit(n)`, `offset(n)` and `page(pageIndex, perPage)` store the negative
value in the descriptor unchanged; no validation occurs and no error is
raised. -/
theorem negative_pagination_stored (s : BuilderState) (n p k : Int)
    (hn : n < 0) (hp : p < 0) :
    (s.limitOp n).current.limit = some n ∧
    (s.offsetOp n).current.offset = some n ∧
    (s.pageOp p k).current.offset = some (p * k) ∧
    (s.pageOp p k).current.limit = some k :=
  ⟨rfl, rfl, rfl, rfl⟩

/-- Witness for `negative_pagination_stored` at `n = -1`, `p = -2`, `k = 3`. -/
theorem negative_pagination_stored_witness :
    (-1 : Int) < 0 ∧ (-2 : Int) < 0 ∧
    ((BuilderState.newBuilder.limitOp (-1)).current.limit = some (-1) ∧
     (BuilderState.newBuilder.offsetOp (-1)).current.offset = some (-1) ∧
     (BuilderState.newBuilder.pageOp (-2) 3).current.offset = some ((-2) * 3) ∧
     (BuilderState.newBuilder.pageOp (-2) 3).current.limit = some 3) :=
  ⟨by decide, by decide,
    negative_pagination_stored BuilderState.newBuilder (-1) (-2) 3
      (by decide) (by decide)⟩

/-- C7: `with` and `without` are cumulative — each call appends its arguments
in order after everything previously added, duplicates included. -/
theorem with_without_cumulative (s : BuilderState)
    (cs cs₂ : List String) (h : s.WF) :
    (s.withOp cs).current.with_components = s.current.with_components ++ cs ∧
    (s.withoutOp cs₂).current.without_components =
      s.current.without_components ++ cs₂ := by
  obtain ⟨h₁, h₂, h₃, h₄, h₅, h₆, h₇⟩ := h
  constructor
  · simp [BuilderState.current, BuilderState.deref, BuilderState.buildOp,
      BuilderState.withOp, BuilderState.pushStr, List.getElem?_set_self h₂]
  · simp [BuilderState.current, BuilderState.deref, BuilderState.buildOp,
      BuilderState.withoutOp, BuilderState.pushStr, List.getElem?_set_self h₃]

/-- Witness for `with_without_cumulative` at the fresh builder, with a
duplicated component name. -/
theorem with_without_cumulative_witness :
    BuilderState.newBuilder.WF ∧
    ((BuilderState.newBuilder.withOp ["A", "A"]).current.with_components =
       BuilderState.newBuilder.current.with_components ++ ["A", "A"] ∧
     (BuilderState.newBuilder.withoutOp ["B"]).current.without_components =
       BuilderState.newBuilder.current.without_components ++ ["B"]) :=
  ⟨by decide,
    with_without_cumulative BuilderState.newBuilder ["A", "A"] ["B"] (by decide)⟩

/-- Counterexample to C1: build the descriptor of a fresh builder, then call
`with('Transform')` — reading the already-returned descriptor now shows
`with_components = ['Transform']`: the shallow copy shares the array. -/
theorem build_defensive_copy_refuted :
    (BuilderState.newBuilder.withOp ["Transform"]).deref
        BuilderState.newBuilder.buildOp ≠
      BuilderState.newBuilder.deref BuilderState.newBuilder.buildOp := by
  decide

/-- What a subsequent builder call does to a descriptor already returned by
`build()`: the calls that assign fields (`select`, `orderBy`, `limit`,
`offset`, `page`) leave it untouched, while the calls that push onto the
shared arrays (`with`, `without`, `where`) append to the lists the returned
descriptor sees. -/
def BuildAliasSpec (s : BuilderState) (fs cs cs₂ : List String)
    (f : String) (o : CompareOp) (v : JsValue) (g : String)
    (dir : SortDirection) (n m p k : Int) : Prop :=
  (s.selectOp fs).deref s.buildOp = s.deref s.buildOp ∧
  (s.orderByOp g dir).deref s.buildOp = s.deref s.buildOp ∧
  (s.limitOp n).deref s.buildOp = s.deref s.buildOp ∧
  (s.offsetOp m).deref s.buildOp = s.deref s.buildOp ∧
  (s.pageOp p k).deref s.buildOp = s.deref s.buildOp ∧
  (s.withOp cs).deref s.buildOp =
    { s.deref s.buildOp with
      with_components := (s.deref s.buildOp).with_components ++ cs } ∧
  (s.withoutOp cs₂).deref s.buildOp =
    { s.deref s.buildOp with
      without_components := (s.deref s.buildOp).without_components ++ cs₂ } ∧
  (s.whereOp f o v).deref s.buildOp =
    { s.deref s.buildOp with
      filters := (s.deref s.buildOp).filters ++ [⟨f, o, v⟩] }

/-- C1 as amended: `build()` returns a shallow copy.  A later `select`,
`orderBy`, `limit`, `offset` or `page` on the builder does not alter the
descriptor already returned, but a later `with`, `without` or `where`
appends to the shared `with_components` / `without_components` / `filters`
arrays of that descriptor. -/
theorem build_shallow_copy_semantics (s : BuilderState) (h : s.WF)
    (fs cs cs₂ : List String) (f : String) (o : CompareOp) (v : JsValue)
    (g : String) (dir : SortDirection) (n m p k : Int) :
    BuildAliasSpec s fs cs cs₂ f o v g dir n m p k := by
  obtain ⟨h₁, h₂, h₃, h₄, h₅, h₆, h₇⟩ := h
  refine ⟨?_, rfl, rfl, rfl, rfl, ?_, ?_, ?_⟩
  · simp [BuilderState.deref, BuilderState.buildOp, BuilderState.selectOp,
      List.getD_eq_getElem?_getD, List.getElem?_append_left h₁,
      List.getElem?_append_left h₂, List.getElem?_append_left h₃]
  · simp [BuilderState.deref, BuilderState.buildOp, BuilderState.withOp,
      BuilderState.pushStr, List.getElem?_set_self h₂,
      List.getElem?_set_ne (Ne.symm h₅), List.getElem?_set_ne h₇]
  · simp [BuilderState.deref, BuilderState.buildOp, BuilderState.withoutOp,
      BuilderState.pushStr, List.getElem?_set_self h₃,
      List.getElem?_set_ne (Ne.symm h₆), List.getElem?_set_ne (Ne.symm h₇)]
  · simp [BuilderState.deref, BuilderState.buildOp, BuilderState.whereOp,
      BuilderState.pushFilt, List.getElem?_set_self h₄]

/-- Witness for `build_shallow_copy_semantics` at the fresh builder. -/
theorem build_shallow_copy_semantics_witness :
    BuilderState.newBuilder.WF ∧
    BuildAliasSpec BuilderState.newBuilder ["name"] ["T"] ["U"]
      "hp" CompareOp.lt (JsValue.num 5) "name" SortDirection.desc 4 8 2 10 :=
  ⟨by decide,
    build_shallow_copy_semantics BuilderState.newBuilder (by decide)
      ["name"] ["T"] ["U"] "hp" CompareOp.lt (JsValue.num 5) "name"
      SortDirection.desc 4 8 2 10⟩

/-- Counterexample to C3: the serialized descriptor of a fresh builder (on
which `offset()`/`page()` was never called) has no `offset` key. -/
theorem toJSON_offset_key_missing :
    "offset" ∉ BuilderState.newBuilder.toJSONKeys := by
  decide

/-- The `offset` key of a builder reached by a call sequence exists exactly
when the sequence assigned it. -/
theorem offset_isSome_applyAll (ops : List BuilderOp) (s : BuilderState) :
    (BuilderOp.applyAll s ops).offset.isSome =
      (s.offset.isSome || ops.any BuilderOp.touchesOffset) := by
  induction ops generalizing s with
  | nil => simp [BuilderOp.applyAll]
  | cons op rest ih =>
    have hstep : (BuilderOp.applyAll s (op :: rest)) =
        BuilderOp.applyAll (BuilderOp.apply s op) rest := rfl
    rw [hstep, ih]
    cases op <;>
      simp [BuilderOp.apply, BuilderOp.touchesOffset, BuilderState.selectOp,
        BuilderState.withOp, BuilderState.withoutOp, BuilderState.whereOp,
        BuilderState.orderByOp, BuilderState.limitOp, BuilderState.offsetOp,
        BuilderState.pageOp, Bool.or_assoc]

/-- C3 as amended: for every call sequence on a fresh builder, `toJSON()`
emits exactly the keys `select`, `with_components`, `without_components`,
`filters`, `order_by`, `limit` — plus `offset` exactly when the sequence
contains an `offset()` or `page()` call — and no others. -/
theorem toJSONKeys_offset_conditional (ops : List BuilderOp) :
    (BuilderOp.applyAll BuilderState.newBuilder ops).toJSONKeys =
      ["select", "with_components", "without_components", "filters",
       "order_by", "limit"] ++
        (if ops.any BuilderOp.touchesOffset then ["offset"] else []) := by
  rw [BuilderState.toJSONKeys, offset_isSome_applyAll]
  simp [BuilderState.newBuilder]

/-- A descriptor whose required and forbidden component sets overlap admits no
candidate entity. -/
theorem candidates_eq_nil_of_overlap (w : World) (d : QueryDescriptor)
    (c : String) (h₁ : c ∈ d.with_components) (h₂ : c ∈ d.without_components) :
    Executor.candidates w d = [] := by
  apply List.filter_eq_nil_iff.mpr
  intro e _
  intro hp
  simp only [Bool.and_eq_true, List.all_eq_true] at hp
  obtain ⟨ha, hb⟩ := hp
  have hc₁ := ha c h₁
  have hc₂ := hb c h₂
  simp at hc₁ hc₂
  exact hc₂ hc₁

/-- C4: for every world and every descriptor whose `with_components` and
`without_components` share a component name, `execute` returns
`total_count = 0` and no rows; being a total function it raises nothing —
the query is vacuously unsatisfiable, not invalid. -/
theorem overlap_yields_empty_result (w : World) (d : QueryDescriptor)
    (c : String) (h₁ : c ∈ d.with_components) (h₂ : c ∈ d.without_components) :
    (Executor.execute w d).total_count = 0 ∧
    (Executor.execute w d).rows = [] := by
  have hcand := candidates_eq_nil_of_overlap w d c h₁ h₂
  have hsurv : Executor.survivors w d = [] := by
    rw [Executor.survivors, hcand]; rfl
  have hord : Executor.ordered w d = [] := by
    rw [Executor.ordered, hsurv]
    cases d.order_by <;> rfl
  constructor
  · rw [Executor.execute]; simp [hsurv]
  · rw [Executor.execute]; simp only [hord]
    cases d.limit <;> simp

/-- Witness for `overlap_yields_empty_result`: a one-entity world and a
descriptor requiring and forbidding the same component `Transform`. -/
theorem overlap_yields_empty_result_witness :
    "Transform" ∈ ["Transform"] ∧ "Transform" ∈ ["Transform"] ∧
    ((Executor.execute (World.mk [Entity.mk 1 ["Transform"] [("x", JsValue.num 1)]])
        (QueryDescriptor.mk ["x"] ["Transform"] ["Transform"] [] none none none)).total_count = 0 ∧
     (Executor.execute (World.mk [Entity.mk 1 ["Transform"] [("x", JsValue.num 1)]])
        (QueryDescriptor.mk ["x"] ["Transform"] ["Transform"] [] none none none)).rows = []) :=
  ⟨by decide, by decide,
    overlap_yields_empty_result
      (World.mk [Entity.mk 1 ["Transform"] [("x", JsValue.num 1)]])
      (QueryDescriptor.mk ["x"] ["Transform"] ["Transform"] [] none none none)
      "Transform" (by decide) (by decide)⟩

/-- Binding after a thrown exception stays the exception. -/
theorem error_bind {α β : Type} (e : String) (f : α → Except String β) :
    (Except.error e >>= f) = Except.error e := rfl

/-- The guard fails on every instance that is not initialized. -/
theorem getEngine_error (s : EngineAPI) (h : s.isInitialized = false) :
    s.getEngine = Except.error EngineAPI.notInitMsg := by
  have hna : ¬(s.initialized ∧ s.engine.isSome) := by
    intro hab
    rw [EngineAPI.isInitialized, hab.1, hab.2] at h
    simp at h
  rw [EngineAPI.getEngine, EngineAPI.assertInitialized, if_neg hna]

/-- C10: on an `EngineAPI` whose `isInitialized` is false (fresh, failed
`initialize`, or disposed), every engine-backed operation throws the
`Engine not initialized` error instead of returning a value; a fresh
instance reports `isInitialized = false`, and `dispose()` always leaves
`isInitialized = false`. -/
theorem uninitialized_ops_throw (s t : EngineAPI)
    (h : s.isInitialized = false) (name : String) (wid id₀ : Int) (wb : Bool)
    (pos : Int × Int × Int) (pr : Option (Int × Int × Int))
    (nr : Option String) (nm : String) (dt cnt : Int)
    (qr : List Int × Nat) (sid : Int) (ub : Bool) :
    s.createEntity name wid = Except.error EngineAPI.notInitMsg ∧
    s.deleteEntity id₀ wb = Except.error EngineAPI.notInitMsg ∧
    s.setPosition id₀ pos = Except.error EngineAPI.notInitMsg ∧
    s.getPosition id₀ pr = Except.error EngineAPI.notInitMsg ∧
    s.getName id₀ nr = Except.error EngineAPI.notInitMsg ∧
    s.setName id₀ nm = Except.error EngineAPI.notInitMsg ∧
    s.tick dt = Except.error EngineAPI.notInitMsg ∧
    s.getEntityCount cnt = Except.error EngineAPI.notInitMsg ∧
    s.executeQuery qr = Except.error EngineAPI.notInitMsg ∧
    s.subscribeQuery sid = Except.error EngineAPI.notInitMsg ∧
    s.unsubscribeQuery id₀ ub = Except.error EngineAPI.notInitMsg ∧
    EngineAPI.new.isInitialized = false ∧
    t.dispose.isInitialized = false := by
  have hg := getEngine_error s h
  refine ⟨?_, ?_, ?_, ?_, ?_, ?_, ?_, ?_, ?_, ?_, ?_, rfl, ?_⟩
  · simp [EngineAPI.createEntity, hg, error_bind]
  · simp [EngineAPI.deleteEntity, hg, error_bind]
  · simp [EngineAPI.setPosition, hg, error_bind]
  · simp [EngineAPI.getPosition, hg, error_bind]
  · simp [EngineAPI.getName, hg, error_bind]
  · simp [EngineAPI.setName, hg, error_bind]
  · simp [EngineAPI.tick, hg, error_bind]
  · simp [EngineAPI.getEntityCount, hg, error_bind]
  · simp [EngineAPI.executeQuery, hg, error_bind]
  · simp [EngineAPI.subscribeQuery, hg, error_bind]
  · simp [EngineAPI.unsubscribeQuery, hg, error_bind]
  · rw [EngineAPI.dispose]
    cases he : t.engine <;> simp [EngineAPI.isInitialized, he]

/-- Witness for `uninitialized_ops_throw` at a fresh instance. -/
theorem uninitialized_ops_throw_witness :
    EngineAPI.new.isInitialized = false ∧
    (EngineAPI.new.createEntity "cube" 7 = Except.error EngineAPI.notInitMsg ∧
     EngineAPI.new.deleteEntity 7 true = Except.error EngineAPI.notInitMsg ∧
     EngineAPI.new.setPosition 7 (1, 2, 3) = Except.error EngineAPI.notInitMsg ∧
     EngineAPI.new.getPosition 7 none = Except.error EngineAPI.notInitMsg ∧
     EngineAPI.new.getName 7 none = Except.error EngineAPI.notInitMsg ∧
     EngineAPI.new.setName 7 "n" = Except.error EngineAPI.notInitMsg ∧
     EngineAPI.new.tick 16 = Except.error EngineAPI.notInitMsg ∧
     EngineAPI.new.getEntityCount 0 = Except.error EngineAPI.notInitMsg ∧
     EngineAPI.new.executeQuery ([], 0) = Except.error EngineAPI.notInitMsg ∧
     EngineAPI.new.subscribeQuery 1 = Except.error EngineAPI.notInitMsg ∧
     EngineAPI.new.unsubscribeQuery 7 false = Except.error EngineAPI.notInitMsg ∧
     EngineAPI.new.isInitialized = false ∧
     EngineAPI.new.dispose.isInitialized = false) :=
  ⟨by decide,
    uninitialized_ops_throw EngineAPI.new EngineAPI.new (by decide)
      "cube" 7 7 true (1, 2, 3) none none "n" 16 0 ([], 0) 1 false⟩

/-- C9: EntityId packing round-trips under JavaScript 32-bit bitwise
semantics — for `0 ≤ i < 2^20` and `0 ≤ g < 2^11` both components are
recovered exactly; at `g = 2^11` the signed shift makes the generation
round-trip fail, so the bound is sharp. -/
theorem entityId_pack_roundtrip (i g : Int)
    (hi₀ : 0 ≤ i) (hi : i < 2 ^ 20) (hg₀ : 0 ≤ g) (hg : g < 2 ^ 11) :
    EntityId.index (EntityId.pack i g) = i ∧
    EntityId.generation (EntityId.pack i g) = g ∧
    EntityId.generation (EntityId.pack 0 (2 ^ 11)) ≠ 2 ^ 11 := by
  have hiN : EntityId.bits32 i = i.toNat := by
    unfold EntityId.bits32; omega
  have hgN : EntityId.bits32 g = g.toNat := by
    unfold EntityId.bits32; omega
  have hiNlt : i.toNat < 2 ^ 20 := by omega
  have hgNlt : g.toNat < 2 ^ 11 := by omega
  have hsum_lt : g.toNat * 2 ^ 20 + i.toNat < 2 ^ 31 := by
    have : g.toNat * 2 ^ 20 ≤ (2 ^ 11 - 1) * 2 ^ 20 :=
      Nat.mul_le_mul_right _ (by omega)
    omega
  have hshl : EntityId.jsShl20 g = ((g.toNat * 2 ^ 20 : Nat) : Int) := by
    unfold EntityId.jsShl20 EntityId.ofBits
    rw [hgN, Nat.mod_eq_of_lt (by omega), if_pos (by omega)]
  have hlor : (g.toNat * 2 ^ 20) ||| i.toNat = g.toNat * 2 ^ 20 + i.toNat := by
    have h := Nat.mul_add_lt_is_or hiNlt g.toNat
    rw [Nat.mul_comm (2 ^ 20) g.toNat] at h
    exact h.symm
  have hpack : EntityId.pack i g = ((g.toNat * 2 ^ 20 + i.toNat : Nat) : Int) := by
    unfold EntityId.pack EntityId.jsOr
    rw [hshl, hiN]
    have hb : EntityId.bits32 ((g.toNat * 2 ^ 20 : Nat) : Int) =
        g.toNat * 2 ^ 20 := by
      unfold EntityId.bits32; omega
    rw [hb, hlor]
    unfold EntityId.ofBits
    rw [if_pos (by omega)]
  have hbits_pack : EntityId.bits32 (EntityId.pack i g) =
      g.toNat * 2 ^ 20 + i.toNat := by
    rw [hpack]; unfold EntityId.bits32; omega
  refine ⟨?_, ?_, by decide⟩
  · unfold EntityId.index EntityId.jsAnd
    rw [hbits_pack]
    have hmask : EntityId.bits32 0xFFFFF = 2 ^ 20 - 1 := by
      unfold EntityId.bits32; omega
    rw [hmask, Nat.and_pow_two_sub_one_eq_mod]
    have hmod : (g.toNat * 2 ^ 20 + i.toNat) % 2 ^ 20 = i.toNat := by omega
    rw [hmod]
    unfold EntityId.ofBits
    rw [if_pos (by omega)]
    omega
  · unfold EntityId.generation EntityId.jsShr20 EntityId.toInt32
    rw [hbits_pack]
    unfold EntityId.ofBits
    rw [if_pos (by omega)]
    have : ((g.toNat * 2 ^ 20 + i.toNat : Nat) : Int) =
        g * 2 ^ 20 + i := by omega
    rw [this]
    omega

/-- Witness for `entityId_pack_roundtrip` at index 5, generation 3. -/
theorem entityId_pack_roundtrip_witness :
    (0 : Int) ≤ 5 ∧ (5 : Int) < 2 ^ 20 ∧ (0 : Int) ≤ 3 ∧ (3 : Int) < 2 ^ 11 ∧
    (EntityId.index (EntityId.pack 5 3) = 5 ∧
     EntityId.generation (EntityId.pack 5 3) = 3 ∧
     EntityId.generation (EntityId.pack 0 (2 ^ 11)) ≠ 2 ^ 11) :=
  ⟨by decide, by decide, by decide, by decide,
    entityId_pack_roundtrip 5 3 (by decide) (by decide) (by decide) (by decide)⟩
